import Mathlib

/-!
Shallow embedding of the pomodoro-plants focus-session controller
(`src/plantViewProvider.ts`) and proofs about it.

The controller state is the persisted `GardenState` record together with the
single shared timer slot (`_timerInterval`) and the window-focus flag.  Each
public operation of `PlantViewProvider` is translated to a pure function
`CState → CState × List Effect`, where the effect list records persistence
writes (`saveState`) and user-facing notifications in the order the source
performs them.  `Math.random()` draws are passed in as an oracle `r : ℚ`
with `0 ≤ r < 1`; `Math.floor(Math.random() * 4)` becomes `sceneDraw r`.
Floating-point progress arithmetic is modelled with exact rationals.
-/

namespace PomodoroPlants

/-- The `pomodoroPlants.*` configuration values (`getSettings()` in the
source), re-read on demand; durations are in minutes. -/
structure Settings where
  pomodoroDuration : Nat
  shortBreakDuration : Nat
  longBreakDuration : Nat
  sessionsBeforeLongBreak : Nat
  autoStartOnFocus : Bool
  showNotifications : Bool
deriving DecidableEq, Repr

/-- The documented defaults of the six settings. -/
def defaultSettings : Settings :=
  { pomodoroDuration := 20
    shortBreakDuration := 5
    longBreakDuration := 15
    sessionsBeforeLongBreak := 4
    autoStartOnFocus := false
    showNotifications := true }

/-- The persisted aggregate record (`interface GardenState`). -/
structure GardenState where
  fruitsCollected : Nat
  lastResetDate : String
  currentSessionSeconds : Nat
  isTimerRunning : Bool
  completedSessions : Nat
  isOnBreak : Bool
  breakSecondsRemaining : Nat
  currentBreakScene : Nat
  nextBreakScene : Nat
deriving DecidableEq, Repr

/-- `const BREAK_SCENES = ['hayBale', 'lemonade', 'fishing', 'treeNap']`. -/
def BREAK_SCENES : List String := ["hayBale", "lemonade", "fishing", "treeNap"]

/-- `const STAGES = [...]`, the ten growth-stage labels in ascending order. -/
def STAGES : List String :=
  ["dirt", "watered", "cracking", "seedling", "sprout",
   "baby", "growing", "leafy", "budding", "fruiting"]

/-- `_getPomodoroDurationSeconds()`: the configured session length in seconds. -/
def durationSeconds (cfg : Settings) : Nat := cfg.pomodoroDuration * 60

/-- `Math.floor(Math.random() * BREAK_SCENES.length)` where `r` is the
`Math.random()` oracle value. -/
def sceneDraw (r : ℚ) : Nat := (⌊r * 4⌋).toNat

/-- The single shared `_timerInterval` slot: empty, armed with the work tick
handler (`_startTimerInterval`), or armed with the break tick handler
(`_startBreakTimer`). -/
inductive Slot where
  | idle
  | work
  | brk
deriving DecidableEq, Repr

/-- Full controller state: the persisted record, the timer slot and the
`_isWindowFocused` flag (initially `true` in the source). -/
structure CState where
  gs : GardenState
  slot : Slot
  focused : Bool
deriving DecidableEq, Repr

/-- The fire-and-forget notifications the controller can emit. -/
inductive Note where
  | sessionReady
  | breakStarted (long : Bool)
  | breakOver
deriving DecidableEq, Repr

/-- Observable side effects of an operation, in source order:
`saveState()` calls and notifications. -/
inductive Effect where
  | save
  | note (n : Note)
deriving DecidableEq, Repr

/-- `_stopTimerInterval()`: clears whatever handler is armed; safe when
nothing is armed. -/
def stopTimerInterval (s : CState) : CState := { s with slot := Slot.idle }

/-- `_startTimerInterval()`: arms the work tick handler unless some handler
is already armed (`if (this._timerInterval) return`). -/
def startTimerIntervalArm (s : CState) : CState :=
  if s.slot = Slot.idle then { s with slot := Slot.work } else s

/-- `_startBreakTimer()`: arms the break tick handler unless some handler is
already armed. -/
def startBreakTimerArm (s : CState) : CState :=
  if s.slot = Slot.idle then { s with slot := Slot.brk } else s

/-- `startTimer()`: no-op while running; otherwise sets the running flag,
pre-selects `nextBreakScene` from the random oracle, arms the work tick when
the window is focused, and persists. -/
def startTimer (r : ℚ) (s : CState) : CState × List Effect :=
  if s.gs.isTimerRunning then (s, [])
  else
    let s1 : CState :=
      { s with gs := { s.gs with isTimerRunning := true, nextBreakScene := sceneDraw r } }
    let s2 : CState := if s1.focused then startTimerIntervalArm s1 else s1
    (s2, [Effect.save])

/-- `stopTimer()`. -/
def stopTimer (s : CState) : CState × List Effect :=
  (stopTimerInterval { s with gs := { s.gs with isTimerRunning := false } }, [Effect.save])

/-- `resetTimer()`. -/
def resetTimer (s : CState) : CState × List Effect :=
  (stopTimerInterval
    { s with gs := { s.gs with currentSessionSeconds := 0, isTimerRunning := false } },
   [Effect.save])

/-- `harvestFruit()`: guarded by `currentSessionSeconds >= duration`; on
success awards the fruit, starts the break and arms the break tick. -/
def harvestFruit (cfg : Settings) (s : CState) : CState × List Effect :=
  if durationSeconds cfg ≤ s.gs.currentSessionSeconds then
    let completed := s.gs.completedSessions + 1
    let isLongBreak := completed % cfg.sessionsBeforeLongBreak == 0
    let gs1 : GardenState :=
      { s.gs with
        fruitsCollected := s.gs.fruitsCollected + 1
        completedSessions := completed
        currentSessionSeconds := 0
        isTimerRunning := false
        isOnBreak := true
        breakSecondsRemaining :=
          (if isLongBreak then cfg.longBreakDuration else cfg.shortBreakDuration) * 60
        currentBreakScene := s.gs.nextBreakScene }
    let s1 := startBreakTimerArm (stopTimerInterval { s with gs := gs1 })
    (s1, [Effect.save] ++
      (if cfg.showNotifications then [Effect.note (Note.breakStarted isLongBreak)] else []))
  else (s, [])

/-- `skipBreak()`. -/
def skipBreak (s : CState) : CState × List Effect :=
  (stopTimerInterval
    { s with gs := { s.gs with isOnBreak := false, breakSecondsRemaining := 0 } },
   [Effect.save])

/-- The `changeBreakScene` message handler:
`this._state.nextBreakScene = message.scene; this.saveState()`. -/
def changeBreakScene (idx : Nat) (s : CState) : CState × List Effect :=
  ({ s with gs := { s.gs with nextBreakScene := idx } }, [Effect.save])

/-- `handleWindowFocusChange(focused)`: while running, arms or disarms the
work tick with focus; otherwise may auto-start when focus returns. -/
def handleWindowFocusChange (cfg : Settings) (focused : Bool) (r : ℚ)
    (s : CState) : CState × List Effect :=
  let s0 : CState := { s with focused := focused }
  if s0.gs.isTimerRunning then
    (if focused then startTimerIntervalArm s0 else stopTimerInterval s0, [])
  else if focused && cfg.autoStartOnFocus
      && decide (s0.gs.currentSessionSeconds < durationSeconds cfg) then
    startTimer r s0
  else (s0, [])

/-- One pulse of the external one-second source: runs whichever handler is
armed in the shared slot (the `setInterval` closures of
`_startTimerInterval` and `_startBreakTimer`); nothing happens when the slot
is empty. -/
def tick (cfg : Settings) (s : CState) : CState × List Effect :=
  match s.slot with
  | Slot.idle => (s, [])
  | Slot.work =>
    if s.gs.currentSessionSeconds < durationSeconds cfg then
      ({ s with gs := { s.gs with currentSessionSeconds := s.gs.currentSessionSeconds + 1 } },
       [Effect.save])
    else
      (stopTimerInterval { s with gs := { s.gs with isTimerRunning := false } },
       [Effect.save] ++ (if cfg.showNotifications then [Effect.note Note.sessionReady] else []))
  | Slot.brk =>
    if 0 < s.gs.breakSecondsRemaining then
      ({ s with gs := { s.gs with breakSecondsRemaining := s.gs.breakSecondsRemaining - 1 } },
       [Effect.save])
    else
      (stopTimerInterval { s with gs := { s.gs with isOnBreak := false } },
       [Effect.save] ++ (if cfg.showNotifications then [Effect.note Note.breakOver] else []))

/-- The controller's command alphabet; random draws are carried as oracle
arguments. -/
inductive Op where
  | start (r : ℚ)
  | stop
  | reset
  | harvest
  | skipBreak
  | changeScene (idx : Nat)
  | focusChanged (focused : Bool) (r : ℚ)
  | tick

/-- Dispatch one operation, returning the new state and its effects. -/
def stepE (cfg : Settings) (op : Op) (s : CState) : CState × List Effect :=
  match op with
  | Op.start r => startTimer r s
  | Op.stop => stopTimer s
  | Op.reset => resetTimer s
  | Op.harvest => harvestFruit cfg s
  | Op.skipBreak => skipBreak s
  | Op.changeScene idx => changeBreakScene idx s
  | Op.focusChanged f r => handleWindowFocusChange cfg f r s
  | Op.tick => tick cfg s

/-- State part of `stepE`. -/
def step (cfg : Settings) (op : Op) (s : CState) : CState := (stepE cfg op s).1

/-- Run a sequence of operations. -/
def run (cfg : Settings) (ops : List Op) (s : CState) : CState :=
  ops.foldl (fun t op => step cfg op t) s

/-- A persisted record as read back from the key-value store: the four
original fields are always present, the five fields added later may be
missing (`undefined`). -/
structure SavedState where
  fruitsCollected : Nat
  lastResetDate : String
  currentSessionSeconds : Nat
  isTimerRunning : Bool
  completedSessions : Option Nat
  isOnBreak : Option Bool
  breakSecondsRemaining : Option Nat
  currentBreakScene : Option Nat
  nextBreakScene : Option Nat
deriving DecidableEq, Repr

/-- `_loadState()`: fresh defaults when nothing is stored, otherwise the
stored record with the newer fields back-filled (`|| 0`, `|| false`,
`?? Math.floor(Math.random() * 4)`). -/
def loadState (saved : Option SavedState) (r : ℚ) (today : String) : GardenState :=
  match saved with
  | some sv =>
    { fruitsCollected := sv.fruitsCollected
      lastResetDate := sv.lastResetDate
      currentSessionSeconds := sv.currentSessionSeconds
      isTimerRunning := sv.isTimerRunning
      completedSessions := sv.completedSessions.getD 0
      isOnBreak := sv.isOnBreak.getD false
      breakSecondsRemaining := sv.breakSecondsRemaining.getD 0
      currentBreakScene := sv.currentBreakScene.getD 0
      nextBreakScene := sv.nextBreakScene.getD (sceneDraw r) }
  | none =>
    { fruitsCollected := 0
      lastResetDate := today
      currentSessionSeconds := 0
      isTimerRunning := false
      completedSessions := 0
      isOnBreak := false
      breakSecondsRemaining := 0
      currentBreakScene := 0
      nextBreakScene := sceneDraw r }

/-- `_checkDailyReset()`: zeroes the daily fields and persists exactly when
the stored date differs from today. -/
def checkDailyReset (today : String) (gs : GardenState) : GardenState × List Effect :=
  if gs.lastResetDate ≠ today then
    ({ gs with
        fruitsCollected := 0
        lastResetDate := today
        currentSessionSeconds := 0
        isTimerRunning := false },
     [Effect.save])
  else (gs, [])

/-- The constructor path on a fresh profile: `_loadState()` with no stored
record followed by `_checkDailyReset()`; the timer slot is empty and the
window focused. -/
def initialState (r : ℚ) (today : String) : CState :=
  { gs := (checkDailyReset today (loadState none r today)).1
    slot := Slot.idle
    focused := true }

/-- States reachable from a fresh initial load by controller operations
under a fixed configuration. -/
def Reachable (cfg : Settings) (s : CState) : Prop :=
  ∃ r today ops, run cfg ops (initialState r today) = s

/-- `_getCurrentStage()`'s threshold chain as a function of the progress
ratio. -/
def stageOfProgress (p : ℚ) : String :=
  if p < 0.1 then "dirt"
  else if p < 0.2 then "watered"
  else if p < 0.3 then "cracking"
  else if p < 0.4 then "seedling"
  else if p < 0.5 then "sprout"
  else if p < 0.6 then "baby"
  else if p < 0.7 then "growing"
  else if p < 0.8 then "leafy"
  else if p < 0.9 then "budding"
  else "fruiting"

/-- `_getCurrentStage()`: progress is `currentSessionSeconds / duration`,
unclamped. -/
def getCurrentStage (cfg : Settings) (gs : GardenState) : String :=
  stageOfProgress ((gs.currentSessionSeconds : ℚ) / (durationSeconds cfg : ℚ))

/-- The `canHarvest` field of the work-mode render projection. -/
def canHarvest (cfg : Settings) (gs : GardenState) : Bool :=
  durationSeconds cfg ≤ gs.currentSessionSeconds

/-- `String.prototype.padStart(2, '0')`. -/
def padStart2 (s : String) : String :=
  if s.length < 2 then String.mk (List.replicate (2 - s.length) '0') ++ s else s

/-- The `MM:SS` computation shared by both projection branches:
`Math.floor(rem / 60)` and `rem % 60` with JavaScript semantics
(`Int.fdiv` and `Int.tmod`), each rendered and padded. -/
def jsMMSS (rem : Int) : String :=
  padStart2 (toString (Int.fdiv rem 60)) ++ ":" ++ padStart2 (toString (Int.tmod rem 60))

/-- Work-mode `timeRemaining`: formats `duration - currentSessionSeconds`. -/
def workTimeString (cfg : Settings) (gs : GardenState) : String :=
  jsMMSS ((durationSeconds cfg : Int) - (gs.currentSessionSeconds : Int))

/-- Break-mode `breakTimeRemaining`: formats `breakSecondsRemaining`. -/
def breakTimeString (gs : GardenState) : String :=
  jsMMSS (gs.breakSecondsRemaining : Int)

/-- The time string `_updateWebview()` sends: the break countdown while
`isOnBreak`, the work remainder otherwise. -/
def projectionTimeString (cfg : Settings) (s : CState) : String :=
  if s.gs.isOnBreak then breakTimeString s.gs else workTimeString cfg s.gs

/-- The webview's scene-cycling click handler:
`(breakSceneNames.indexOf(current) + 1) % breakSceneNames.length`, with
JavaScript `indexOf` returning `-1` on a miss; this is the only
`changeBreakScene` payload the webview ever posts. -/
def jsIndexOf (l : List String) (x : String) : Int :=
  match l.indexOf? x with
  | some i => (i : Int)
  | none => -1

/-- The scene index the webview delivers with a `changeBreakScene` message,
as a function of its current scene name. -/
def wvNextSceneIndex (cur : String) : Nat :=
  ((jsIndexOf BREAK_SCENES cur + 1) % 4).toNat

/-- Both scene indices of the record are valid positions in the 4-element
scene set. -/
def sceneInv (gs : GardenState) : Prop :=
  gs.nextBreakScene < 4 ∧ gs.currentBreakScene < 4

/-- Operations that can set `isTimerRunning` by calling `startTimer()`:
a direct `start` command, or a focus-gain that may auto-start. -/
def startsSession : Op → Bool
  | Op.start _ => true
  | Op.focusChanged true _ => true
  | _ => false

/-- The spec's reading of a displayed time string: it is the minute/second
rendering of `rem` produced by the two padded fields, and each field is
exactly two characters wide. -/
def TwoDigitMMSS (str : String) (rem : Int) : Prop :=
  str = padStart2 (toString (Int.fdiv rem 60)) ++ ":" ++ padStart2 (toString (Int.tmod rem 60)) ∧
  (padStart2 (toString (Int.fdiv rem 60))).length = 2 ∧
  (padStart2 (toString (Int.tmod rem 60))).length = 2

/-- The band index chosen by `_getCurrentStage()`'s threshold chain. -/
def stageIndexOfProgress (p : ℚ) : Nat :=
  if p < 0.1 then 0
  else if p < 0.2 then 1
  else if p < 0.3 then 2
  else if p < 0.4 then 3
  else if p < 0.5 then 4
  else if p < 0.6 then 5
  else if p < 0.7 then 6
  else if p < 0.8 then 7
  else if p < 0.9 then 8
  else 9

/-- A one-minute-session configuration, used to exhibit short reachable
traces. -/
def cfgOneMinute : Settings := { defaultSettings with pomodoroDuration := 1 }

/-- A 100-minute-session configuration (`pomodoroDuration = 100`, i.e. a
6000-second session). -/
def cfgLongSession : Settings := { defaultSettings with pomodoroDuration := 100 }

/-- Start a session, tick it to completion under `cfgOneMinute`, harvest
(entering the break), then issue `start` again during the break. -/
def traceStartDuringBreak : List Op :=
  Op.start 0 :: (List.replicate 60 Op.tick ++ [Op.harvest, Op.start 0])

/-- A running work session one second short of the default 1200-second
duration, work tick armed. -/
def sRun1199 : CState :=
  { gs := { fruitsCollected := 2, lastResetDate := "2026-01-05",
            currentSessionSeconds := 1199, isTimerRunning := true,
            completedSessions := 3, isOnBreak := false,
            breakSecondsRemaining := 0, currentBreakScene := 1, nextBreakScene := 2 }
    slot := Slot.work, focused := true }

/-- An idle mid-session state (timer stopped at 5 elapsed seconds). -/
def sIdle5 : CState :=
  { gs := { fruitsCollected := 0, lastResetDate := "2026-01-05",
            currentSessionSeconds := 5, isTimerRunning := false,
            completedSessions := 0, isOnBreak := false,
            breakSecondsRemaining := 0, currentBreakScene := 0, nextBreakScene := 3 }
    slot := Slot.idle, focused := true }

/-- A completed session waiting to be harvested. -/
def sReady : CState :=
  { gs := { fruitsCollected := 1, lastResetDate := "2026-01-05",
            currentSessionSeconds := 1200, isTimerRunning := false,
            completedSessions := 3, isOnBreak := false,
            breakSecondsRemaining := 0, currentBreakScene := 0, nextBreakScene := 2 }
    slot := Slot.idle, focused := true }

/-- The state right after the tick that reached the 1200-second bound:
still logically running, work tick still armed. -/
def sRunReady : CState :=
  { gs := { fruitsCollected := 2, lastResetDate := "2026-01-05",
            currentSessionSeconds := 1200, isTimerRunning := true,
            completedSessions := 3, isOnBreak := false,
            breakSecondsRemaining := 0, currentBreakScene := 1, nextBreakScene := 2 }
    slot := Slot.work, focused := true }

/-- A break in progress with 299 seconds remaining, break tick armed. -/
def sBreak299 : CState :=
  { gs := { fruitsCollected := 1, lastResetDate := "2026-01-05",
            currentSessionSeconds := 0, isTimerRunning := false,
            completedSessions := 1, isOnBreak := true,
            breakSecondsRemaining := 299, currentBreakScene := 2, nextBreakScene := 2 }
    slot := Slot.brk, focused := true }

/-! ## Helper lemmas -/

lemma mod_beq_zero_iff_dvd (k n : Nat) : ((n % k == 0) = true) ↔ k ∣ n := by
  rw [beq_iff_eq]
  constructor
  · exact Nat.dvd_of_mod_eq_zero
  · intro h
    rcases h with ⟨c, rfl⟩
    exact Nat.mul_mod_right k c

lemma tick_on_idle (cfg : Settings) (gs : GardenState) (f : Bool) :
    step cfg Op.tick ⟨gs, Slot.idle, f⟩ = ⟨gs, Slot.idle, f⟩ := rfl

lemma tick_iterate_on_idle (cfg : Settings) (t : CState) (h : t.slot = Slot.idle) :
    ∀ n : Nat, (step cfg Op.tick)^[n] t = t := by
  intro n
  induction n with
  | zero => rfl
  | succ m ih =>
    obtain ⟨gs, sl, f⟩ := t
    have hsl : sl = Slot.idle := h
    subst hsl
    rw [Function.iterate_succ_apply, tick_on_idle, ih]

lemma stage_eq_getD (p : ℚ) :
    stageOfProgress p = STAGES.getD (stageIndexOfProgress p) "" := by
  unfold stageOfProgress stageIndexOfProgress
  split_ifs <;> rfl

lemma stageIndex_le_nine (p : ℚ) : stageIndexOfProgress p ≤ 9 := by
  unfold stageIndexOfProgress
  split_ifs <;> omega

lemma indexOf_STAGES_getD : ∀ k : Nat, k < 10 → STAGES.indexOf (STAGES.getD k "") = k := by
  intro k hk
  interval_cases k <;> rfl

lemma floor_eq_of_tenth_bounds {p : ℚ} (i : ℤ) (hl : (i : ℚ)/10 ≤ p)
    (hu : p < ((i : ℚ) + 1)/10) : ⌊(10:ℚ) * p⌋ = i := by
  rw [Int.floor_eq_iff]
  constructor <;> push_cast <;> linarith

lemma stageIndex_eq_floor {p : ℚ} (h0 : 0 ≤ p) (h1 : p ≤ 1) :
    stageIndexOfProgress p = min (⌊(10:ℚ) * p⌋).toNat 9 := by
  unfold stageIndexOfProgress
  split_ifs with h01 h02 h03 h04 h05 h06 h07 h08 h09
  · rw [floor_eq_of_tenth_bounds 0 (by push_cast; linarith) (by push_cast; linarith)]
    decide
  · rw [floor_eq_of_tenth_bounds 1 (by push_cast; linarith) (by push_cast; linarith)]
    decide
  · rw [floor_eq_of_tenth_bounds 2 (by push_cast; linarith) (by push_cast; linarith)]
    decide
  · rw [floor_eq_of_tenth_bounds 3 (by push_cast; linarith) (by push_cast; linarith)]
    decide
  · rw [floor_eq_of_tenth_bounds 4 (by push_cast; linarith) (by push_cast; linarith)]
    decide
  · rw [floor_eq_of_tenth_bounds 5 (by push_cast; linarith) (by push_cast; linarith)]
    decide
  · rw [floor_eq_of_tenth_bounds 6 (by push_cast; linarith) (by push_cast; linarith)]
    decide
  · rw [floor_eq_of_tenth_bounds 7 (by push_cast; linarith) (by push_cast; linarith)]
    decide
  · rw [floor_eq_of_tenth_bounds 8 (by push_cast; linarith) (by push_cast; linarith)]
    decide
  · have h9 : (9:ℤ) ≤ ⌊(10:ℚ) * p⌋ := Int.le_floor.mpr (by push_cast; linarith)
    omega

lemma stage_above_one {p : ℚ} (h : 1 ≤ p) : stageOfProgress p = "fruiting" := by
  unfold stageOfProgress
  rw [if_neg (by linarith), if_neg (by linarith), if_neg (by linarith),
      if_neg (by linarith), if_neg (by linarith), if_neg (by linarith),
      if_neg (by linarith), if_neg (by linarith), if_neg (by linarith)]

lemma stage_clamp {p : ℚ} (h0 : 0 ≤ p) :
    stageOfProgress p = stageOfProgress (min p 1) := by
  rcases le_or_lt p 1 with h | h
  · rw [min_eq_left h]
  · rw [min_eq_right h.le, stage_above_one h.le, stage_above_one le_rfl]

lemma sceneDraw_lt_four {r : ℚ} (h0 : 0 ≤ r) (h1 : r < 1) : sceneDraw r < 4 := by
  unfold sceneDraw
  have hf0 : (0:ℤ) ≤ ⌊r * 4⌋ := Int.floor_nonneg.mpr (by positivity)
  have hf4 : ⌊r * 4⌋ < 4 := Int.floor_lt.mpr (by push_cast; linarith)
  omega

lemma sceneDraw_eq_iff {r : ℚ} (h0 : 0 ≤ r) (h1 : r < 1) {k : Nat} (hk : k < 4) :
    sceneDraw r = k ↔ ((k : ℚ)/4 ≤ r ∧ r < ((k : ℚ) + 1)/4) := by
  unfold sceneDraw
  have hf0 : (0:ℤ) ≤ ⌊r * 4⌋ := Int.floor_nonneg.mpr (by positivity)
  constructor
  · intro h
    have hfk : ⌊r * 4⌋ = (k : ℤ) := by omega
    have h2 := Int.floor_eq_iff.mp hfk
    push_cast at h2
    constructor <;> linarith [h2.1, h2.2]
  · rintro ⟨ha, hb⟩
    have hfk : ⌊r * 4⌋ = (k : ℤ) := by
      rw [Int.floor_eq_iff]
      push_cast
      constructor <;> linarith
    omega

lemma scene_inv_step (cfg : Settings) (op : Op) (s : CState)
    (hinv : sceneInv s.gs)
    (hsel : ∀ idx, op = Op.changeScene idx → idx < 4)
    (hstart : ∀ r, op = Op.start r → 0 ≤ r ∧ r < 1)
    (hfocus : ∀ b r, op = Op.focusChanged b r → 0 ≤ r ∧ r < 1) :
    sceneInv (step cfg op s).gs := by
  obtain ⟨hn, hc⟩ := hinv
  cases op with
  | start r =>
    obtain ⟨hr0, hr1⟩ := hstart r rfl
    simp only [step, stepE, startTimer, startTimerIntervalArm]
    split_ifs <;> first | exact ⟨hn, hc⟩ | exact ⟨sceneDraw_lt_four hr0 hr1, hc⟩
  | stop => exact ⟨hn, hc⟩
  | reset => exact ⟨hn, hc⟩
  | harvest =>
    simp only [step, stepE, harvestFruit, stopTimerInterval, startBreakTimerArm]
    split_ifs <;> first | exact ⟨hn, hc⟩ | exact ⟨hn, hn⟩
  | skipBreak => exact ⟨hn, hc⟩
  | changeScene idx => exact ⟨hsel idx rfl, hc⟩
  | focusChanged b r =>
    obtain ⟨hr0, hr1⟩ := hfocus b r rfl
    simp only [step, stepE, handleWindowFocusChange, startTimer,
      startTimerIntervalArm, stopTimerInterval]
    split_ifs <;> first | exact ⟨hn, hc⟩ | exact ⟨sceneDraw_lt_four hr0 hr1, hc⟩
  | tick =>
    obtain ⟨gs, sl, f⟩ := s
    dsimp only at hn hc
    cases sl with
    | idle => exact ⟨hn, hc⟩
    | work =>
      simp only [step, stepE, tick]
      split_ifs <;> exact ⟨hn, hc⟩
    | brk =>
      simp only [step, stepE, tick]
      split_ifs <;> exact ⟨hn, hc⟩

lemma pad2_len : ∀ m : Nat, m < 100 → (padStart2 (toString m)).length = 2 := by
  intro m hm
  interval_cases m <;> rfl

lemma fdiv_natCast (n : Nat) : Int.fdiv (n : Int) 60 = ((n / 60 : Nat) : Int) := by
  rw [Int.fdiv_eq_ediv _ (by norm_num)]
  exact (Int.natCast_div n 60).symm

lemma tmod_natCast (n : Nat) : Int.tmod (n : Int) 60 = ((n % 60 : Nat) : Int) := by
  rw [Int.tmod_eq_emod (by positivity) (by norm_num)]
  exact (Int.natCast_mod n 60).symm

lemma twoDigit_of_lt {n : Nat} (h : n < 6000) :
    TwoDigitMMSS (jsMMSS (n : Int)) (n : Int) := by
  refine ⟨rfl, ?_, ?_⟩
  · rw [fdiv_natCast,
      show toString ((n / 60 : Nat) : Int) = toString (n / 60) from rfl]
    exact pad2_len _ (by omega)
  · rw [tmod_natCast,
      show toString ((n % 60 : Nat) : Int) = toString (n % 60) from rfl]
    exact pad2_len _ (by omega)

lemma step_cs_le (cfg : Settings) (op : Op) (s : CState)
    (h : s.gs.currentSessionSeconds ≤ durationSeconds cfg) :
    (step cfg op s).gs.currentSessionSeconds ≤ durationSeconds cfg := by
  obtain ⟨⟨fc, lrd, cs, itr, comp, iob, brs, cbs, nbs⟩, sl, f⟩ := s
  dsimp only at h
  cases op with
  | start r =>
    simp only [step, stepE, startTimer, startTimerIntervalArm]
    split_ifs <;> exact h
  | stop => exact h
  | reset => exact Nat.zero_le _
  | harvest =>
    simp only [step, stepE, harvestFruit, stopTimerInterval, startBreakTimerArm]
    split_ifs <;> first | exact Nat.zero_le _ | exact h
  | skipBreak => exact h
  | changeScene idx => exact h
  | focusChanged b r =>
    simp only [step, stepE, handleWindowFocusChange, startTimer,
      startTimerIntervalArm, stopTimerInterval]
    split_ifs <;> exact h
  | tick =>
    cases sl with
    | idle => exact h
    | work =>
      simp only [step, stepE, tick]
      split_ifs <;> dsimp only [stopTimerInterval] <;> omega
    | brk =>
      simp only [step, stepE, tick]
      split_ifs <;> dsimp only [stopTimerInterval] <;> exact h

lemma run_cs_le (cfg : Settings) (ops : List Op) :
    ∀ s : CState, s.gs.currentSessionSeconds ≤ durationSeconds cfg →
      (run cfg ops s).gs.currentSessionSeconds ≤ durationSeconds cfg := by
  induction ops with
  | nil => exact fun s h => h
  | cons op rest ih => exact fun s h => ih _ (step_cs_le cfg op s h)

lemma initial_cs_zero (r : ℚ) (today : String) :
    (initialState r today).gs.currentSessionSeconds = 0 := by
  simp [initialState, checkDailyReset, loadState]

lemma reachable_cs_le (cfg : Settings) (s : CState) (h : Reachable cfg s) :
    s.gs.currentSessionSeconds ≤ durationSeconds cfg := by
  obtain ⟨r, today, ops, rfl⟩ := h
  refine run_cs_le cfg ops _ ?_
  rw [initial_cs_zero]
  exact Nat.zero_le _

/-! ## Claim theorems -/

/-- Claim C2: a `harvest()` call in a state with
`currentSessionSeconds ≥ durationSeconds` increments `fruitsCollected` and
`completedSessions` by one each, zeroes `currentSessionSeconds`, clears
`isTimerRunning`, enters the break with the pre-selected scene applied, and
sets `breakSecondsRemaining` to the long break length exactly when the
post-increment `completedSessions` is divisible by
`sessionsBeforeLongBreak`, and to the short break length otherwise. -/
theorem harvest_success_effects (cfg : Settings) (s : CState)
    (h : durationSeconds cfg ≤ s.gs.currentSessionSeconds) :
    (step cfg Op.harvest s).gs.fruitsCollected = s.gs.fruitsCollected + 1 ∧
    (step cfg Op.harvest s).gs.completedSessions = s.gs.completedSessions + 1 ∧
    (step cfg Op.harvest s).gs.currentSessionSeconds = 0 ∧
    (step cfg Op.harvest s).gs.isTimerRunning = false ∧
    (step cfg Op.harvest s).gs.isOnBreak = true ∧
    (step cfg Op.harvest s).gs.currentBreakScene = s.gs.nextBreakScene ∧
    (step cfg Op.harvest s).gs.breakSecondsRemaining =
      (if cfg.sessionsBeforeLongBreak ∣ (s.gs.completedSessions + 1)
       then cfg.longBreakDuration else cfg.shortBreakDuration) * 60 := by
  simp only [step, stepE, harvestFruit, if_pos h, stopTimerInterval, startBreakTimerArm]
  by_cases hd : cfg.sessionsBeforeLongBreak ∣ (s.gs.completedSessions + 1)
  · have hm : ((s.gs.completedSessions + 1) % cfg.sessionsBeforeLongBreak == 0) = true :=
      (mod_beq_zero_iff_dvd _ _).mpr hd
    simp [hm, hd]
  · have hm : ((s.gs.completedSessions + 1) % cfg.sessionsBeforeLongBreak == 0) = false := by
      rcases Bool.eq_false_or_eq_true ((s.gs.completedSessions + 1) % cfg.sessionsBeforeLongBreak == 0) with ht | hf
      · exact absurd ((mod_beq_zero_iff_dvd _ _).mp ht) hd
      · exact hf
    simp [hm, hd]

/-- Witness for C2: harvesting the concrete completed session `sReady`
(1200 elapsed seconds, default 20-minute settings, third session becoming
the fourth) yields the long break. -/
theorem harvest_success_effects_witness :
    (step defaultSettings Op.harvest sReady).gs.fruitsCollected = sReady.gs.fruitsCollected + 1 ∧
    (step defaultSettings Op.harvest sReady).gs.completedSessions = sReady.gs.completedSessions + 1 ∧
    (step defaultSettings Op.harvest sReady).gs.currentSessionSeconds = 0 ∧
    (step defaultSettings Op.harvest sReady).gs.isTimerRunning = false ∧
    (step defaultSettings Op.harvest sReady).gs.isOnBreak = true ∧
    (step defaultSettings Op.harvest sReady).gs.currentBreakScene = sReady.gs.nextBreakScene ∧
    (step defaultSettings Op.harvest sReady).gs.breakSecondsRemaining =
      (if defaultSettings.sessionsBeforeLongBreak ∣ (sReady.gs.completedSessions + 1)
       then defaultSettings.longBreakDuration else defaultSettings.shortBreakDuration) * 60 :=
  harvest_success_effects defaultSettings sReady (by decide)

/-- Claim C3: a `harvest()` call in a state with
`currentSessionSeconds < durationSeconds` is a pure no-op — the state is
returned unchanged and no persistence write or notification is emitted. -/
theorem harvest_noop_before_completion (cfg : Settings) (s : CState)
    (h : s.gs.currentSessionSeconds < durationSeconds cfg) :
    stepE cfg Op.harvest s = (s, []) := by
  simp only [stepE, harvestFruit]
  rw [if_neg (by omega)]

/-- Witness for C3: harvesting the concrete idle state with 5 elapsed
seconds under the default settings changes nothing and emits nothing. -/
theorem harvest_noop_before_completion_witness :
    stepE defaultSettings Op.harvest sIdle5 = (sIdle5, []) :=
  harvest_noop_before_completion defaultSettings sIdle5 (by decide)

/-- Claim C7: the load-time daily-reset check rewrites the state exactly
when the stored `lastResetDate` differs from today — zeroing
`fruitsCollected`, `currentSessionSeconds` and `isTimerRunning`, stamping
today's date, and persisting — while leaving `completedSessions` and every
break/scene field untouched; with a matching date it changes nothing, and
running it twice on the same day is idempotent. -/
theorem daily_reset_on_load (today : String) (gs : GardenState) :
    (gs.lastResetDate ≠ today →
      checkDailyReset today gs =
        ({ gs with fruitsCollected := 0, lastResetDate := today,
                   currentSessionSeconds := 0, isTimerRunning := false }, [Effect.save])) ∧
    (gs.lastResetDate = today → checkDailyReset today gs = (gs, [])) ∧
    checkDailyReset today (checkDailyReset today gs).1 =
      ((checkDailyReset today gs).1, []) := by
  refine ⟨?_, ?_, ?_⟩
  · intro hne
    simp [checkDailyReset, hne]
  · intro heq
    simp [checkDailyReset, heq]
  · by_cases heq : gs.lastResetDate = today
    · simp [checkDailyReset, heq]
    · simp [checkDailyReset, heq]

/-- Witness for C7: loading `sIdle5.gs` (stamped 2026-01-05) on 2026-01-06
resets the daily fields; its idempotence conjunct also evaluates on this
input. -/
theorem daily_reset_on_load_witness :
    checkDailyReset "2026-01-06" sIdle5.gs =
      ({ sIdle5.gs with fruitsCollected := 0, lastResetDate := "2026-01-06",
                        currentSessionSeconds := 0, isTimerRunning := false },
       [Effect.save]) :=
  (daily_reset_on_load "2026-01-06" sIdle5.gs).1 (by decide)

/-- Claim C10: `stop()` during a break with time remaining only clears
`isTimerRunning` and cancels the shared timer slot; every other record
field (in particular `isOnBreak` and `breakSecondsRemaining`) is unchanged,
and because the slot is empty, any number of subsequent ticks leaves the
state exactly as it is — the break never ends and the countdown never
moves by ticks alone. -/
theorem stop_during_break_freezes (cfg : Settings) (s : CState)
    (hb : s.gs.isOnBreak = true) (hr : 0 < s.gs.breakSecondsRemaining) :
    (step cfg Op.stop s).gs = { s.gs with isTimerRunning := false } ∧
    (step cfg Op.stop s).slot = Slot.idle ∧
    ∀ n : Nat, (step cfg Op.tick)^[n] (step cfg Op.stop s) = step cfg Op.stop s := by
  refine ⟨rfl, rfl, ?_⟩
  exact tick_iterate_on_idle cfg _ rfl

/-- Witness for C10: stopping the concrete break state `sBreak299`
(299 seconds left), then delivering three ticks, leaves the stopped state
untouched. -/
theorem stop_during_break_freezes_witness :
    (step defaultSettings Op.stop sBreak299).gs =
      { sBreak299.gs with isTimerRunning := false } ∧
    (step defaultSettings Op.tick)^[3] (step defaultSettings Op.stop sBreak299) =
      step defaultSettings Op.stop sBreak299 :=
  ⟨(stop_during_break_freezes defaultSettings sBreak299 (by decide) (by decide)).1,
   (stop_during_break_freezes defaultSettings sBreak299 (by decide) (by decide)).2.2 3⟩

/-- Claim C4: while the work handler is armed and the session is running, a
tick below the bound increments `currentSessionSeconds` by exactly one and
leaves the running flag set; the tick that arrives with
`currentSessionSeconds = durationSeconds` leaves the counter unchanged,
empties the timer slot, clears `isTimerRunning`, and emits the
session-ready notification exactly when `showNotifications` is set. -/
theorem work_tick_behavior (cfg : Settings) (s : CState)
    (hw : s.slot = Slot.work) (hrun : s.gs.isTimerRunning = true) :
    (s.gs.currentSessionSeconds < durationSeconds cfg →
      (step cfg Op.tick s).gs.currentSessionSeconds = s.gs.currentSessionSeconds + 1 ∧
      (step cfg Op.tick s).gs.isTimerRunning = true) ∧
    (s.gs.currentSessionSeconds = durationSeconds cfg →
      (step cfg Op.tick s).gs.currentSessionSeconds = s.gs.currentSessionSeconds ∧
      (step cfg Op.tick s).slot = Slot.idle ∧
      (step cfg Op.tick s).gs.isTimerRunning = false ∧
      (Effect.note Note.sessionReady ∈ (stepE cfg Op.tick s).2 ↔
        cfg.showNotifications = true)) := by
  obtain ⟨gs, sl, f⟩ := s
  dsimp only at hw hrun ⊢
  subst hw
  constructor
  · intro h
    dsimp only [step, stepE, tick]
    rw [if_pos h]
    exact ⟨rfl, hrun⟩
  · intro h
    have hn : ¬ (gs.currentSessionSeconds < durationSeconds cfg) := by omega
    dsimp only [step, stepE, tick]
    rw [if_neg hn]
    refine ⟨rfl, rfl, rfl, ?_⟩
    cases hsn : cfg.showNotifications <;> simp [hsn]

/-- Witness for C4: under the default settings, one tick at `sRun1199`
(1199 elapsed, running) increments to 1200, and one tick at `sRunReady`
(1200 elapsed, still armed) disarms, stops the session and notifies. -/
theorem work_tick_behavior_witness :
    ((step defaultSettings Op.tick sRun1199).gs.currentSessionSeconds =
        sRun1199.gs.currentSessionSeconds + 1 ∧
      (step defaultSettings Op.tick sRun1199).gs.isTimerRunning = true) ∧
    ((step defaultSettings Op.tick sRunReady).gs.currentSessionSeconds =
        sRunReady.gs.currentSessionSeconds ∧
      (step defaultSettings Op.tick sRunReady).slot = Slot.idle ∧
      (step defaultSettings Op.tick sRunReady).gs.isTimerRunning = false ∧
      (Effect.note Note.sessionReady ∈ (stepE defaultSettings Op.tick sRunReady).2 ↔
        defaultSettings.showNotifications = true)) :=
  ⟨(work_tick_behavior defaultSettings sRun1199 rfl rfl).1 (by decide),
   (work_tick_behavior defaultSettings sRunReady rfl rfl).2 (by decide)⟩

set_option maxRecDepth 100000 in
/-- Claim C1 counterexample: from a fresh load under a one-minute
configuration, running `start`, 60 work ticks, `harvest` and then `start`
again during the resulting break reaches a state where `isTimerRunning`
and `isOnBreak` are both true — `startTimer()` has no break guard, so the
claimed mutual exclusion fails on a reachable state. -/
theorem start_during_break_breaks_mutex :
    Reachable cfgOneMinute
      (run cfgOneMinute traceStartDuringBreak (initialState 0 "2026-01-01")) ∧
    (run cfgOneMinute traceStartDuringBreak (initialState 0 "2026-01-01")).gs.isTimerRunning
      = true ∧
    (run cfgOneMinute traceStartDuringBreak (initialState 0 "2026-01-01")).gs.isOnBreak
      = true :=
  ⟨⟨0, "2026-01-01", traceStartDuringBreak, rfl⟩, by decide, by decide⟩

/-- Claim C1 amended: every operation except a session start preserves the
mutual exclusion of `isTimerRunning` and `isOnBreak` in every state, and a
session start (a `start` command, or a focus gain that can auto-start)
preserves it whenever no break is in progress; only starting during a
break violates it. -/
theorem mutex_preserved_outside_break_start (cfg : Settings) (op : Op) (s : CState)
    (hm : (s.gs.isTimerRunning && s.gs.isOnBreak) = false)
    (hop : s.gs.isOnBreak = true → startsSession op = false) :
    ((step cfg op s).gs.isTimerRunning && (step cfg op s).gs.isOnBreak) = false := by
  obtain ⟨⟨fc, lrd, cs, itr, comp, iob, brs, cbs, nbs⟩, sl, f⟩ := s
  cases op <;> cases sl <;> cases itr <;> cases iob <;>
    simp_all [step, stepE, startTimer, stopTimer, resetTimer, harvestFruit, skipBreak,
      changeBreakScene, handleWindowFocusChange, tick, startTimerIntervalArm,
      stopTimerInterval, startBreakTimerArm, startsSession] <;>
    split_ifs <;> simp_all

/-- Witness for C1 amended: skipping the break from the concrete break
state `sBreak299` keeps the two flags mutually exclusive. -/
theorem mutex_preserved_outside_break_start_witness :
    ((step defaultSettings Op.skipBreak sBreak299).gs.isTimerRunning &&
      (step defaultSettings Op.skipBreak sBreak299).gs.isOnBreak) = false :=
  mutex_preserved_outside_break_start defaultSettings Op.skipBreak sBreak299
    (by decide) (by decide)

/-- Claim C5 counterexample: at 1199 of 1200 seconds the projection shows
`fruiting` and `canHarvest = false`, but the single tick that reaches 1200
does not disarm the scheduler: `isTimerRunning` is still true and the work
handler is still armed immediately after it. -/
theorem single_tick_does_not_disarm :
    getCurrentStage defaultSettings sRun1199.gs = "fruiting" ∧
    canHarvest defaultSettings sRun1199.gs = false ∧
    (step defaultSettings Op.tick sRun1199).gs.currentSessionSeconds = 1200 ∧
    (step defaultSettings Op.tick sRun1199).gs.isTimerRunning = true ∧
    (step defaultSettings Op.tick sRun1199).slot = Slot.work := by
  refine ⟨?_, by decide, by decide, by decide, by decide⟩
  norm_num [getCurrentStage, durationSeconds, defaultSettings, sRun1199, stageOfProgress]

/-- Claim C5 amended: with `pomodoroDuration = 20` and a running session at
1199 seconds the projection shows `fruiting` and `canHarvest = false`; one
tick reaches 1200 and makes `canHarvest` true while the session is still
running and armed, and the following tick disarms the scheduler and clears
`isTimerRunning` with the counter staying at 1200. -/
theorem tick_at_boundary_two_stage :
    getCurrentStage defaultSettings sRun1199.gs = "fruiting" ∧
    canHarvest defaultSettings sRun1199.gs = false ∧
    (step defaultSettings Op.tick sRun1199).gs.currentSessionSeconds = 1200 ∧
    canHarvest defaultSettings (step defaultSettings Op.tick sRun1199).gs = true ∧
    (step defaultSettings Op.tick sRun1199).gs.isTimerRunning = true ∧
    (step defaultSettings Op.tick (step defaultSettings Op.tick sRun1199)).slot
      = Slot.idle ∧
    (step defaultSettings Op.tick (step defaultSettings Op.tick sRun1199)).gs.isTimerRunning
      = false ∧
    (step defaultSettings Op.tick (step defaultSettings Op.tick sRun1199)).gs.currentSessionSeconds
      = 1200 := by
  refine ⟨?_, by decide, by decide, by decide, by decide, by decide, by decide, by decide⟩
  norm_num [getCurrentStage, durationSeconds, defaultSettings, sRun1199, stageOfProgress]

/-- Claim C6: the rendered growth stage is a function of the clamped
progress `min(currentSessionSeconds / durationSeconds, 1)`; on `[0, 1]`
the stage is the `STAGES` entry at band index `min(⌊10·p⌋, 9)` — ten
equal-width lower-inclusive bands with the final band closed at 1 — and
the band index is monotone in the progress. -/
theorem growth_stage_band_structure :
    (∀ cfg gs, 0 < durationSeconds cfg →
      getCurrentStage cfg gs =
        stageOfProgress
          (min ((gs.currentSessionSeconds : ℚ) / (durationSeconds cfg : ℚ)) 1)) ∧
    (∀ p : ℚ, 0 ≤ p → p ≤ 1 →
      stageOfProgress p = STAGES.getD (min (⌊(10:ℚ) * p⌋).toNat 9) "") ∧
    (∀ p q : ℚ, 0 ≤ p → p ≤ q → q ≤ 1 →
      STAGES.indexOf (stageOfProgress p) ≤ STAGES.indexOf (stageOfProgress q)) := by
  refine ⟨?_, ?_, ?_⟩
  · intro cfg gs hdur
    unfold getCurrentStage
    exact stage_clamp (by positivity)
  · intro p h0 h1
    rw [stage_eq_getD, stageIndex_eq_floor h0 h1]
  · intro p q hp0 hpq hq1
    rw [stage_eq_getD p, stage_eq_getD q,
      indexOf_STAGES_getD _ (by have := stageIndex_le_nine p; omega),
      indexOf_STAGES_getD _ (by have := stageIndex_le_nine q; omega),
      stageIndex_eq_floor hp0 (le_trans hpq hq1),
      stageIndex_eq_floor (le_trans hp0 hpq) hq1]
    have := Int.floor_le_floor (show (10:ℚ) * p ≤ 10 * q by linarith)
    omega

/-- Witness for C6: instantiates the three parts at the idle 5-second state
under the defaults, at progress one half, and at the progress pair
one quarter and three quarters. -/
theorem growth_stage_band_structure_witness :
    getCurrentStage defaultSettings sIdle5.gs =
      stageOfProgress
        (min ((sIdle5.gs.currentSessionSeconds : ℚ) / (durationSeconds defaultSettings : ℚ)) 1) ∧
    stageOfProgress (1/2 : ℚ) = STAGES.getD (min (⌊(10:ℚ) * (1/2 : ℚ)⌋).toNat 9) "" ∧
    STAGES.indexOf (stageOfProgress (1/4 : ℚ)) ≤ STAGES.indexOf (stageOfProgress (3/4 : ℚ)) :=
  ⟨growth_stage_band_structure.1 defaultSettings sIdle5.gs (by norm_num [durationSeconds, defaultSettings]),
   growth_stage_band_structure.2.1 (1/2 : ℚ) (by norm_num) (by norm_num),
   growth_stage_band_structure.2.2 (1/4 : ℚ) (3/4 : ℚ) (by norm_num) (by norm_num) (by norm_num)⟩

/-- Claim C8: every operation keeps both scene indices in the valid range
0–3: any operation preserves the range invariant provided a `changeScene`
payload is one the webview can deliver (always below 4, third conjunct
below covers the webview computation) and random draws come from `[0,1)`;
`start()`'s draw lands in the four quarter-width cells partitioning
`[0,1)` (one per scene, the uniform distribution); and loading — fresh or
back-filling a record missing the scene fields — yields in-range
indices. -/
theorem scene_index_always_valid :
    (∀ cfg op s, sceneInv s.gs →
      (∀ idx, op = Op.changeScene idx → idx < 4) →
      (∀ r, op = Op.start r → 0 ≤ r ∧ r < 1) →
      (∀ b r, op = Op.focusChanged b r → 0 ≤ r ∧ r < 1) →
      sceneInv (step cfg op s).gs) ∧
    (∀ cur : String, wvNextSceneIndex cur < 4) ∧
    (∀ r : ℚ, 0 ≤ r → r < 1 → sceneDraw r < 4 ∧
      ∀ k : Nat, k < 4 →
        (sceneDraw r = k ↔ ((k : ℚ)/4 ≤ r ∧ r < ((k : ℚ) + 1)/4))) ∧
    (∀ r today, 0 ≤ r → r < 1 → sceneInv (loadState none r today)) ∧
    (∀ sv r today, 0 ≤ r → r < 1 →
      sv.currentBreakScene = none → sv.nextBreakScene = none →
      sceneInv (loadState (some sv) r today)) := by
  refine ⟨scene_inv_step, ?_, ?_, ?_, ?_⟩
  · intro cur
    unfold wvNextSceneIndex
    have h1 : 0 ≤ (jsIndexOf BREAK_SCENES cur + 1) % 4 :=
      Int.emod_nonneg _ (by norm_num)
    have h2 : (jsIndexOf BREAK_SCENES cur + 1) % 4 < 4 :=
      Int.emod_lt_of_pos _ (by norm_num)
    omega
  · intro r h0 h1
    exact ⟨sceneDraw_lt_four h0 h1, fun k hk => sceneDraw_eq_iff h0 h1 hk⟩
  · intro r today h0 h1
    exact ⟨sceneDraw_lt_four h0 h1, show (0:Nat) < 4 by norm_num⟩
  · intro sv r today h0 h1 hcb hnb
    simp only [loadState, hcb, hnb, Option.getD_none]
    exact ⟨sceneDraw_lt_four h0 h1, show (0:Nat) < 4 by norm_num⟩

/-- Witness for C8: evaluates the invariant preservation at a concrete
harvest from `sReady`, the webview payload bound at the `fishing` scene,
the draw bound and cell membership at `r = 1/3` (scene 1), and both load
shapes at `r = 1/3`. -/
theorem scene_index_always_valid_witness :
    sceneInv (step defaultSettings Op.harvest sReady).gs ∧
    wvNextSceneIndex "fishing" < 4 ∧
    sceneDraw (1/3 : ℚ) < 4 ∧
    sceneDraw (1/3 : ℚ) = 1 ∧
    sceneInv (loadState none (1/3 : ℚ) "2026-01-01") :=
  ⟨scene_index_always_valid.1 defaultSettings Op.harvest sReady ⟨by decide, by decide⟩
      (fun _ h => nomatch h) (fun _ h => nomatch h) (fun _ _ h => nomatch h),
   scene_index_always_valid.2.1 "fishing",
   (scene_index_always_valid.2.2.1 (1/3 : ℚ) (by norm_num) (by norm_num)).1,
   ((scene_index_always_valid.2.2.1 (1/3 : ℚ) (by norm_num) (by norm_num)).2 1
      (by norm_num)).mpr ⟨by norm_num, by norm_num⟩,
   scene_index_always_valid.2.2.2.1 (1/3 : ℚ) "2026-01-01" (by norm_num) (by norm_num)⟩

/-- Claim C9 counterexample: with `pomodoroDuration = 100` the freshly
loaded (reachable) state renders the work remainder 6000 s as `"100:00"`
— the minutes field is three characters, so the displayed string does not
consist of two-digit minutes. -/
theorem long_session_breaks_two_digit_format :
    Reachable cfgLongSession (initialState 0 "2026-01-01") ∧
    workTimeString cfgLongSession (initialState 0 "2026-01-01").gs = "100:00" ∧
    ¬ TwoDigitMMSS (workTimeString cfgLongSession (initialState 0 "2026-01-01").gs)
        ((durationSeconds cfgLongSession : Int)
          - ((initialState 0 "2026-01-01").gs.currentSessionSeconds : Int)) :=
  ⟨⟨0, "2026-01-01", [], rfl⟩, by decide, fun h => absurd h.2.1 (by decide)⟩

/-- Claim C9 amended: in every reachable state the work counter never
exceeds the configured duration, and both projection branches render the
remaining time (`duration − currentSessionSeconds` in work mode,
`breakSecondsRemaining` in break mode) as the colon-separated pair of
zero-padded fields; those fields are exactly two digits whenever the
remaining time is below 6000 seconds (minutes ≤ 99) — for longer
durations the minutes field grows beyond two digits. -/
theorem time_string_two_digit :
    (∀ cfg s, Reachable cfg s →
      s.gs.currentSessionSeconds ≤ durationSeconds cfg) ∧
    (∀ cfg gs, gs.currentSessionSeconds ≤ durationSeconds cfg →
      durationSeconds cfg - gs.currentSessionSeconds < 6000 →
      TwoDigitMMSS (workTimeString cfg gs)
        ((durationSeconds cfg : Int) - (gs.currentSessionSeconds : Int))) ∧
    (∀ gs : GardenState, gs.breakSecondsRemaining < 6000 →
      TwoDigitMMSS (breakTimeString gs) (gs.breakSecondsRemaining : Int)) := by
  refine ⟨reachable_cs_le, ?_, ?_⟩
  · intro cfg gs hle hlt
    have e : (durationSeconds cfg : Int) - (gs.currentSessionSeconds : Int)
        = ((durationSeconds cfg - gs.currentSessionSeconds : Nat) : Int) := by omega
    unfold workTimeString
    rw [e]
    exact twoDigit_of_lt (by omega)
  · intro gs h
    exact twoDigit_of_lt h

/-- Witness for C9 amended: the counter bound at a fresh reachable state,
the work-mode rendering at `sRun1199` (1 s remaining), and the break-mode
rendering at `sBreak299` (299 s remaining). -/
theorem time_string_two_digit_witness :
    (initialState 0 "2026-01-02").gs.currentSessionSeconds ≤
      durationSeconds defaultSettings ∧
    TwoDigitMMSS (workTimeString defaultSettings sRun1199.gs)
      ((durationSeconds defaultSettings : Int) - (sRun1199.gs.currentSessionSeconds : Int)) ∧
    TwoDigitMMSS (breakTimeString sBreak299.gs) (sBreak299.gs.breakSecondsRemaining : Int) :=
  ⟨time_string_two_digit.1 defaultSettings (initialState 0 "2026-01-02")
      ⟨0, "2026-01-02", [], rfl⟩,
   time_string_two_digit.2.1 defaultSettings sRun1199.gs (by decide) (by decide),
   time_string_two_digit.2.2 sBreak299.gs (by decide)⟩

end PomodoroPlants
